import Mathlib

/-!
# CodeCircle platform — verification of the provisioning orchestrator and
configuration synchronizer

Shallow embedding of `src/platform/app` (Python/FastAPI).  Database tables
are modelled as lists of rows, HTTP calls to downstream services as oracle
functions supplied as parameters (`ProvisionEnv`), JSON values as the
inductive `JVal`, and Python `str | None` as `Option String`.  Timestamps
(`created_at`/`updated_at`) and row UUID primary keys are omitted: no claim
mentions them.  Python truthiness of optional strings (`None` and `""` are
falsy) is `truthy`; a SQLAlchemy `UUID | None` column is truthy iff non-null
(`Option.isSome`), since a UUID never renders as the empty string.
-/

/-- Python truthiness of a `str | None` value: `None` and `""` are falsy. -/
def truthy (o : Option String) : Bool := o.getD "" ≠ ""

/-- Split a character list at every occurrence of `c`, Python-`str.split`
style: `splitOnChar '/' "a/b".data = ["a".data, "b".data]` and splitting the
empty list yields `[[]]`. -/
def splitOnChar (c : Char) : List Char → List (List Char)
  | [] => [[]]
  | x :: xs =>
    let r := splitOnChar c xs
    if x = c then [] :: r
    else
      match r with
      | [] => [[x]]
      | h :: t => (x :: h) :: t

/-- `p.rstrip("/").split("/")[-1]` — last path segment, used to derive a
repository name from a repository path (`setup.py`, `provisioner.py`). -/
def lastPathSegment (p : String) : String :=
  let stripped := (p.data.reverse.dropWhile (· = '/')).reverse
  ((splitOnChar '/' stripped).getLastD []).asString

/-- A JSON value, as far as the payloads under verification need: payload
fields are strings, integers, or explicit `null`. -/
inductive JVal where
  | null : JVal
  | str (s : String) : JVal
  | num (n : Int) : JVal
deriving DecidableEq, Repr

/-- Encode a `str | None` (or stringified `UUID | None`) as JSON: `None`
becomes an explicit `null`, a string becomes a JSON string. -/
def optJ : Option String → JVal
  | none => JVal.null
  | some s => JVal.str s

/-- `app/config.py` `Settings` — the downstream service base URLs. -/
structure Settings where
  fixai_url : String
  metrics_explorer_url : String
  logs_explorer_url : String
  code_parser_url : String
deriving DecidableEq, Repr

namespace Models

/-- `app/models/workspace.py` `Workspace` row (id as an opaque string; the
column default for `status` is recorded by `workspace_status_default`). -/
structure Workspace where
  id : String
  name : String
  slug : String
  llm_provider : Option String := none
  llm_api_key_encrypted : Option String := none
  llm_bedrock_url : Option String := none
  llm_model_id : Option String := none
  metrics_provider : Option String := none
  metrics_credentials_encrypted : Option (List (String × String)) := none
  metrics_endpoint_url : Option String := none
  logs_provider : Option String := none
  logs_credentials_encrypted : Option (List (String × String)) := none
  logs_host_url : Option String := none
  code_repo_path : Option String := none
  code_repo_name : Option String := none
  fixai_org_id : Option String := none
  metrics_org_id : Option String := none
  logs_org_id : Option String := none
  code_parser_org_id : Option String := none
  code_parser_repo_id : Option String := none
  status : String
  error_message : Option String := none
deriving DecidableEq, Repr

/-- `workspace.py` line 52: the `status` column default. The endpoints in
`workspaces.py` / `setup.py` always pass an explicit status, so this default
only applies to a `Workspace(...)` constructed without one. -/
def workspace_status_default : String := "setup"

/-- `app/models/ai_config.py` `AIConfig` row. `workspace_id = none` marks
the global default row. -/
structure AIConfig where
  workspace_id : Option String
  provider : String
  api_key : Option String
  base_url : Option String
  model_id : Option String
  max_tokens : Int
deriving DecidableEq, Repr

end Models

namespace Schemas

/-- `app/schemas/workspace.py` `WorkspaceCreate`. -/
structure WorkspaceCreate where
  name : String
  slug : String
deriving DecidableEq, Repr

/-- `app/schemas/workspace.py` `AIConfig` (setup-wizard AI step). -/
structure AIConfig where
  llm_provider : String
  llm_api_key : Option String := none
  llm_bedrock_url : Option String := none
  llm_model_id : Option String := none
deriving DecidableEq, Repr

/-- `app/schemas/workspace.py` `MetricsConfig`. -/
structure MetricsConfig where
  provider : String
  api_key : Option String := none
  app_key : Option String := none
  site : Option String := none
  endpoint_url : Option String := none
  bearer_token : Option String := none
  username : Option String := none
  password : Option String := none
deriving DecidableEq, Repr

/-- `app/schemas/workspace.py` `LogsConfig`. -/
structure LogsConfig where
  provider : String := "splunk_cloud"
  host_url : String
  cookie : Option String := none
  csrf_token : Option String := none
deriving DecidableEq, Repr

/-- `app/schemas/workspace.py` `CodeConfig`. -/
structure CodeConfig where
  repo_path : String
  repo_name : Option String := none
deriving DecidableEq, Repr

/-- `app/schemas/workspace.py` `SetupWizardRequest`. -/
structure SetupWizardRequest where
  name : String
  slug : String
  ai : Option AIConfig := none
  metrics : Option MetricsConfig := none
  logs : Option LogsConfig := none
  code : Option CodeConfig := none
deriving DecidableEq, Repr

/-- `app/schemas/ai_config.py` `AIConfigUpdate` (request body for saving an
AI configuration; `provider` is pattern-restricted to claude/bedrock and
`max_tokens` is a non-null int by pydantic validation). -/
structure AIConfigUpdate where
  provider : String := "bedrock"
  api_key : Option String := none
  base_url : Option String := none
  model_id : Option String := none
  max_tokens : Int := 4096
deriving DecidableEq, Repr

/-- `app/schemas/ai_config.py` `AIConfigResponse` (`updated_at` omitted). -/
structure AIConfigResponse where
  provider : String
  api_key_set : Bool
  api_key_preview : Option String := none
  base_url : Option String
  model_id : Option String
  max_tokens : Int
deriving DecidableEq, Repr

/-- Modelled from the spec: `ConnectServiceRequest` is imported by
`app/api/workspaces.py` from `app.schemas.workspace` but the class is
absent from the available source of that module.  Per spec §3 ("Service
Link": a service-name → remote-organization-id pair, plus for the code
service an additional remote-repository-id) and §6 ("connect/disconnect a
service link") a connect request carries a service name, a remote
organization id, and an optional repository id, with no stated restriction
on the service-name string. -/
structure ConnectServiceRequest where
  service : String
  org_id : String
  repo_id : Option String := none
deriving DecidableEq, Repr

end Schemas

/-- Environment variables read by `app/api/ai_settings.py` via
`os.getenv(name, "")`; an unset variable is modelled as `""` (the code
treats unset and empty alike: both are falsy and both default to `""`). -/
structure EnvVars where
  claude_api_key : String := ""
  claude_bedrock_url : String := ""
  claude_model_id : String := ""
deriving DecidableEq, Repr

-- A few sanity checks of the helpers (library-name availability).
example : lastPathSegment "/srv/repos/acme/" = "acme" := by decide
example : String.intercalate "; " ["Metrics: x", "Logs: y"] = "Metrics: x; Logs: y" := by decide
example : truthy (some "") = false := by decide
example : "abcdefghij".takeRight 8 = "cdefghij" := by decide

/-!
## `app/services/provisioner.py`

Each per-service provisioner performs HTTP calls against its downstream
service.  The remote side is abstracted as an oracle (`ProvisionEnv`): for
each provisioner, the outcome that invoking it on a given workspace and
configuration would produce — `Except.ok` with the service-assigned
identifier(s), or `Except.error msg` where `msg` is the Python `str(e)` of
the raised exception.  The FixAI oracle additionally receives the four
optional identifiers the orchestrator passes to `provision_fixai`, so a
theorem can speak about the values FixAI is invoked with. -/

structure ProvisionEnv where
  metricsOutcome : Models.Workspace → Schemas.MetricsConfig → Except String String
  logsOutcome : Models.Workspace → Schemas.LogsConfig → Except String String
  codeOutcome : Models.Workspace → Schemas.CodeConfig → Except String (String × String)
  fixaiOutcome : Models.Workspace → Option String → Option String → Option String →
      Option String → Except String String

/-- The dict returned by `provision_workspace` (provisioner.py lines
242-248).  UUID-valued identifiers are carried as strings. -/
structure ProvisionResult where
  fixai_org_id : Option String
  metrics_org_id : Option String
  logs_org_id : Option String
  code_parser_org_id : Option String
  code_parser_repo_id : Option String
  errors : List String
deriving DecidableEq, Repr

/-- The JSON body `provision_fixai` POSTs to
`{fixai_url}/api/v1/organizations` (provisioner.py lines 170-181).
`metrics_org_id`/`logs_org_id` are `str(x) if x else None` on `UUID | None`
values (a UUID is truthy and its string form is never empty), and
`code_parser_org_id`/`code_parser_repo_id` are `str | None` passed through
unchanged; both become `optJ` on `Option String`. -/
def provision_fixai_payload (settings : Settings) (workspace : Models.Workspace)
    (metrics_org_id logs_org_id code_parser_org_id code_parser_repo_id : Option String) :
    List (String × JVal) :=
  [("name", JVal.str workspace.name),
   ("slug", JVal.str workspace.slug),
   ("description", JVal.str ("CodeCircle workspace: " ++ workspace.name)),
   ("code_parser_base_url", JVal.str settings.code_parser_url),
   ("code_parser_org_id", optJ code_parser_org_id),
   ("code_parser_repo_id", optJ code_parser_repo_id),
   ("metrics_explorer_base_url", JVal.str settings.metrics_explorer_url),
   ("metrics_explorer_org_id", optJ metrics_org_id),
   ("logs_explorer_base_url", JVal.str settings.logs_explorer_url),
   ("logs_explorer_org_id", optJ logs_org_id)]

/-- `provision_workspace` (provisioner.py lines 189-249).  Invokes the
metrics, logs and code provisioners for whichever configurations are
supplied, each in its own try/except that converts an exception into a
labeled error string; then unconditionally invokes the FixAI provisioner
with whatever identifiers were obtained (`none` for failed or skipped
services), likewise converting its failure into a labeled error.  The
function is total: no provisioner failure aborts the overall operation.
The `ai` parameter is accepted and unused, exactly as in the source. -/
def provision_workspace (workspace : Models.Workspace)
    (ai : Option Schemas.AIConfig) (metrics : Option Schemas.MetricsConfig)
    (logs : Option Schemas.LogsConfig) (code : Option Schemas.CodeConfig)
    (env : ProvisionEnv) : ProvisionResult :=
  let _ := ai
  let (metrics_org_id, errs1) :=
    match metrics with
    | none => (none, [])
    | some mc =>
      match env.metricsOutcome workspace mc with
      | .ok oid => (some oid, [])
      | .error e => (none, ["Metrics: " ++ e])
  let (logs_org_id, errs2) :=
    match logs with
    | none => (none, [])
    | some lc =>
      match env.logsOutcome workspace lc with
      | .ok oid => (some oid, [])
      | .error e => (none, ["Logs: " ++ e])
  let (code_parser_org_id, code_parser_repo_id, errs3) :=
    match code with
    | none => (none, none, [])
    | some cc =>
      match env.codeOutcome workspace cc with
      | .ok (oid, rid) => (some oid, some rid, [])
      | .error e => (none, none, ["Code: " ++ e])
  let (fixai_org_id, errs4) :=
    match env.fixaiOutcome workspace metrics_org_id logs_org_id
        code_parser_org_id code_parser_repo_id with
    | .ok oid => (some oid, [])
    | .error e => (none, ["FixAI: " ++ e])
  { fixai_org_id := fixai_org_id
    metrics_org_id := metrics_org_id
    logs_org_id := logs_org_id
    code_parser_org_id := code_parser_org_id
    code_parser_repo_id := code_parser_repo_id
    errors := errs1 ++ errs2 ++ errs3 ++ errs4 }

/-!
## `app/api/setup.py`
-/

/-- The block shared verbatim by the `provision` endpoint (setup.py lines
219-235) and `setup_complete` (lines 305-319): copy the returned service
identifiers onto the workspace row, then set status `error` with
`error_message` joined by `"; "` when the error list is non-empty, else
status `ready` with `error_message` cleared. -/
def apply_provision_result (ws : Models.Workspace) (result : ProvisionResult) :
    Models.Workspace :=
  let ws := { ws with
    fixai_org_id := result.fixai_org_id
    metrics_org_id := result.metrics_org_id
    logs_org_id := result.logs_org_id
    code_parser_org_id := result.code_parser_org_id
    code_parser_repo_id := result.code_parser_repo_id }
  match result.errors with
  | [] => { ws with status := "ready", error_message := none }
  | _ => { ws with
      status := "error"
      error_message := some (String.intercalate "; " result.errors) }

/-- `provision` endpoint, config-reconstruction block (setup.py lines
170-209): rebuild the four per-service configuration objects from the
stored workspace columns.  `if ws.metrics_provider and
ws.metrics_credentials_encrypted:` requires a truthy provider string and a
non-empty credentials dict; similarly for logs. -/
def provision_endpoint_configs (ws : Models.Workspace) :
    Option Schemas.AIConfig × Option Schemas.MetricsConfig ×
    Option Schemas.LogsConfig × Option Schemas.CodeConfig :=
  let ai_config : Option Schemas.AIConfig :=
    if truthy ws.llm_provider then
      some { llm_provider := ws.llm_provider.getD ""
             llm_api_key := ws.llm_api_key_encrypted
             llm_bedrock_url := ws.llm_bedrock_url
             llm_model_id := ws.llm_model_id }
    else none
  let metrics_config : Option Schemas.MetricsConfig :=
    match ws.metrics_credentials_encrypted with
    | some creds =>
      if truthy ws.metrics_provider ∧ creds ≠ [] then
        some { provider := ws.metrics_provider.getD ""
               api_key := creds.lookup "api_key"
               app_key := creds.lookup "app_key"
               site := creds.lookup "site"
               endpoint_url := ws.metrics_endpoint_url
               bearer_token := creds.lookup "bearer_token"
               username := creds.lookup "username"
               password := creds.lookup "password" }
      else none
    | none => none
  let logs_config : Option Schemas.LogsConfig :=
    match ws.logs_credentials_encrypted with
    | some creds =>
      if truthy ws.logs_provider ∧ creds ≠ [] then
        some { provider := ws.logs_provider.getD ""
               host_url := ws.logs_host_url.getD ""
               cookie := creds.lookup "cookie"
               csrf_token := creds.lookup "csrf_token" }
      else none
    | none => none
  let code_config : Option Schemas.CodeConfig :=
    if truthy ws.code_repo_path then
      some { repo_path := ws.code_repo_path.getD ""
             repo_name := ws.code_repo_name }
    else none
  (ai_config, metrics_config, logs_config, code_config)

/-- `provision` endpoint, first mutation (setup.py lines 167-168): the
workspace status is set to `provisioning` (and committed) before any
provisioner runs. -/
def provision_endpoint_start (ws : Models.Workspace) : Models.Workspace :=
  { ws with status := "provisioning" }

/-- The aggregate result computed inside the `provision` endpoint (setup.py
line 211): `provision_workspace` on the configurations rebuilt from the
stored workspace columns. -/
def provision_endpoint_result (ws : Models.Workspace) (env : ProvisionEnv) :
    ProvisionResult :=
  let (ai, metrics, logs, code) := provision_endpoint_configs ws
  provision_workspace ws ai metrics logs code env

/-- `provision` endpoint (setup.py lines 157-235), workspace-found path:
mark the workspace `provisioning`, rebuild the stored configurations, run
`provision_workspace`, and apply the aggregate result. -/
def provision_endpoint (ws : Models.Workspace) (env : ProvisionEnv) :
    Models.Workspace :=
  let ws1 := provision_endpoint_start ws
  apply_provision_result ws1 (provision_endpoint_result ws1 env)

/-- `setup_complete`, workspace construction block (setup.py lines
254-290): a new workspace row created directly in status `provisioning`,
with the submitted per-service configurations saved onto its columns.
Note the metrics credentials dict here stores only truthy
api_key/app_key/site/bearer_token entries (no username/password, unlike the
step endpoint), and `llm_api_key_encrypted`/cookie/csrf fall back to `""`
via Python `or`. -/
def setup_build_workspace (body : Schemas.SetupWizardRequest) (newId : String) :
    Models.Workspace :=
  let ws : Models.Workspace :=
    { id := newId, name := body.name, slug := body.slug, status := "provisioning" }
  let ws :=
    match body.ai with
    | none => ws
    | some a =>
      { ws with
        llm_provider := some a.llm_provider
        llm_api_key_encrypted := some (a.llm_api_key.getD "")
        llm_bedrock_url := a.llm_bedrock_url
        llm_model_id := a.llm_model_id }
  let ws :=
    match body.metrics with
    | none => ws
    | some m =>
      let creds :=
        (if truthy m.api_key then [("api_key", m.api_key.getD "")] else []) ++
        (if truthy m.app_key then [("app_key", m.app_key.getD "")] else []) ++
        (if truthy m.site then [("site", m.site.getD "")] else []) ++
        (if truthy m.bearer_token then [("bearer_token", m.bearer_token.getD "")] else [])
      { ws with
        metrics_provider := some m.provider
        metrics_endpoint_url := m.endpoint_url
        metrics_credentials_encrypted := some creds }
  let ws :=
    match body.logs with
    | none => ws
    | some l =>
      { ws with
        logs_provider := some l.provider
        logs_host_url := some l.host_url
        logs_credentials_encrypted :=
          some [("cookie", l.cookie.getD ""), ("csrf_token", l.csrf_token.getD "")] }
  match body.code with
  | none => ws
  | some c =>
    { ws with
      code_repo_path := some c.repo_path
      code_repo_name :=
        some (if truthy c.repo_name then c.repo_name.getD ""
              else lastPathSegment c.repo_path) }

/-- `setup_complete` endpoint (setup.py lines 241-320).  The database is a
list of workspace rows; an `HTTPException` is `Except.error (statusCode,
db-at-raise-time)`, so a 409 carries the untouched database.  On success
the new (fully provisioned) row is appended. -/
def setup_complete (db : List Models.Workspace) (body : Schemas.SetupWizardRequest)
    (newId : String) (env : ProvisionEnv) :
    Except (Nat × List Models.Workspace) (Models.Workspace × List Models.Workspace) :=
  if db.any (fun w => w.slug = body.slug) then .error (409, db)
  else
    let ws := setup_build_workspace body newId
    let result := provision_workspace ws body.ai body.metrics body.logs body.code env
    let ws2 := apply_provision_result ws result
    .ok (ws2, db ++ [ws2])

/-!
## `app/api/workspaces.py`
-/

/-- `create_workspace` endpoint (workspaces.py lines 138-148): reject an
already-used slug with 409 (database untouched), else add a row created
with `status="active"` (all other optional columns at their null
defaults). -/
def create_workspace (db : List Models.Workspace) (body : Schemas.WorkspaceCreate)
    (newId : String) :
    Except (Nat × List Models.Workspace) (Models.Workspace × List Models.Workspace) :=
  if db.any (fun w => w.slug = body.slug) then .error (409, db)
  else
    let ws : Models.Workspace :=
      { id := newId, name := body.name, slug := body.slug, status := "active" }
    .ok (ws, db ++ [ws])

/-- `_build_fixai_service_mappings` (workspaces.py lines 284-310): the
PATCH payload of service URL/org mappings derived from the workspace's
current links, with explicit nulls for unlinked services.
`code_parser_org_id` is a `str | None` column, so Python truthiness is
`truthy`; `metrics_org_id`/`logs_org_id` are `UUID | None` columns, truthy
iff non-null. -/
def build_fixai_service_mappings (settings : Settings) (ws : Models.Workspace) :
    List (String × JVal) :=
  (if truthy ws.code_parser_org_id then
    [("code_parser_base_url", JVal.str settings.code_parser_url),
     ("code_parser_org_id", optJ ws.code_parser_org_id),
     ("code_parser_repo_id", optJ ws.code_parser_repo_id)]
   else
    [("code_parser_base_url", JVal.null),
     ("code_parser_org_id", JVal.null),
     ("code_parser_repo_id", JVal.null)]) ++
  (if ws.metrics_org_id.isSome then
    [("metrics_explorer_base_url", JVal.str settings.metrics_explorer_url),
     ("metrics_explorer_org_id", optJ ws.metrics_org_id)]
   else
    [("metrics_explorer_base_url", JVal.null),
     ("metrics_explorer_org_id", JVal.null)]) ++
  (if ws.logs_org_id.isSome then
    [("logs_explorer_base_url", JVal.str settings.logs_explorer_url),
     ("logs_explorer_org_id", optJ ws.logs_org_id)]
   else
    [("logs_explorer_base_url", JVal.null),
     ("logs_explorer_org_id", JVal.null)])

/-- The observable effect of `_push_ai_config_to_org` (workspaces.py lines
328-360): either no remote call, or a single PUT of a JSON payload to one
URL.  (A failing PUT is logged and swallowed, so the action, not its
outcome, is the observable.) -/
inductive PushAction where
  | noCall : PushAction
  | put (url : String) (payload : List (String × JVal)) : PushAction
deriving DecidableEq, Repr

/-- The credential payload PUT by `_push_ai_config_to_org` (workspaces.py
lines 340-345); identical to the payload of `_push_to_services`
(ai_settings.py lines 96-101). -/
def ai_config_push_payload (cfg : Models.AIConfig) : List (String × JVal) :=
  [("claude_api_key", JVal.str (cfg.api_key.getD "")),
   ("claude_bedrock_url", JVal.str (cfg.base_url.getD "")),
   ("claude_model_id", JVal.str (cfg.model_id.getD "")),
   ("claude_max_tokens", JVal.num cfg.max_tokens)]

/-- `_push_ai_config_to_org` (workspaces.py lines 328-360): runs
`select(AIConfig).limit(1)` — the first row of the `ai_config` table, with
no filter on `workspace_id` and no ordering — then returns without a call
when no row exists or the row's `api_key` is falsy, and otherwise PUTs the
credential payload to the single given organization of the `fixai` or
`code_parser` service (any other service name: no call). -/
def push_ai_config_to_org (settings : Settings) (db : List Models.AIConfig)
    (service : String) (org_id : String) : PushAction :=
  match db.head? with
  | none => .noCall
  | some cfg =>
    if ¬ truthy cfg.api_key then .noCall
    else if service = "fixai" then
      .put (settings.fixai_url ++ "/api/v1/organizations/" ++ org_id ++ "/ai-config")
        (ai_config_push_payload cfg)
    else if service = "code_parser" then
      .put (settings.code_parser_url ++ "/api/v1/orgs/" ++ org_id ++ "/ai-config")
        (ai_config_push_payload cfg)
    else .noCall

/-- The push-to-one-org operation as the spec describes it ("fetch the
(global) AI configuration", spec §4.4): identical to
`push_ai_config_to_org` except that the row consulted is the global row —
the one with no owning workspace — rather than the first row of the table.
Stated for refinement comparison only; `push_ai_config_to_org` above is the
code's behavior. -/
def push_ai_config_to_org_spec (settings : Settings) (db : List Models.AIConfig)
    (service : String) (org_id : String) : PushAction :=
  match db.find? (fun r => r.workspace_id = none) with
  | none => .noCall
  | some cfg =>
    if ¬ truthy cfg.api_key then .noCall
    else if service = "fixai" then
      .put (settings.fixai_url ++ "/api/v1/organizations/" ++ org_id ++ "/ai-config")
        (ai_config_push_payload cfg)
    else if service = "code_parser" then
      .put (settings.code_parser_url ++ "/api/v1/orgs/" ++ org_id ++ "/ai-config")
        (ai_config_push_payload cfg)
    else .noCall

/-- A detached background unit of work enqueued by a request handler via
`background_tasks.add_task` (fire-and-forget; failures never reach the
request). -/
inductive BackgroundTask where
  | pushAIConfigToOrg (service : String) (org_id : String) : BackgroundTask
  | syncServiceMappingsToFixai (ws : Models.Workspace) : BackgroundTask
  | pushToServices (cfg : Models.AIConfig) : BackgroundTask
deriving DecidableEq, Repr

/-- `connect_service` endpoint (workspaces.py lines 363-397),
workspace-found path: set the link field selected by `body.service`
(silently changing nothing for an unrecognized service name — there is no
`else` raise), then enqueue the AI-config push for `fixai`/`code_parser`
links and the FixAI mapping sync when a non-fixai service changed while a
FixAI org is linked.  Returns the committed workspace and the enqueued
tasks. -/
def connect_service (ws : Models.Workspace) (body : Schemas.ConnectServiceRequest) :
    Models.Workspace × List BackgroundTask :=
  let ws1 :=
    if body.service = "fixai" then { ws with fixai_org_id := some body.org_id }
    else if body.service = "metrics" then { ws with metrics_org_id := some body.org_id }
    else if body.service = "logs" then { ws with logs_org_id := some body.org_id }
    else if body.service = "code_parser" then
      let ws' := { ws with code_parser_org_id := some body.org_id }
      if truthy body.repo_id then { ws' with code_parser_repo_id := body.repo_id }
      else ws'
    else ws
  let tasks1 :=
    if body.service = "fixai" ∨ body.service = "code_parser" then
      [BackgroundTask.pushAIConfigToOrg body.service body.org_id]
    else []
  let tasks2 :=
    if body.service ≠ "fixai" ∧ ws1.fixai_org_id.isSome then
      [BackgroundTask.syncServiceMappingsToFixai ws1]
    else []
  (ws1, tasks1 ++ tasks2)

/-- `disconnect_service` endpoint (workspaces.py lines 400-431),
workspace-found path: clear the link field selected by `service`, raising
400 (`Except.error`, before any commit — workspace untouched) for an
unknown service name; then enqueue the FixAI mapping sync when applicable. -/
def disconnect_service (ws : Models.Workspace) (service : String) :
    Except Nat (Models.Workspace × List BackgroundTask) :=
  let ws1 :=
    if service = "fixai" then Except.ok { ws with fixai_org_id := none }
    else if service = "metrics" then Except.ok { ws with metrics_org_id := none }
    else if service = "logs" then Except.ok { ws with logs_org_id := none }
    else if service = "code_parser" then
      Except.ok { ws with code_parser_org_id := none, code_parser_repo_id := none }
    else Except.error 400
  ws1.map fun ws2 =>
    (ws2,
     if service ≠ "fixai" ∧ ws2.fixai_org_id.isSome then
       [BackgroundTask.syncServiceMappingsToFixai ws2]
     else [])

/-!
## `app/api/ai_settings.py`
-/

/-- Python `s[-n:]` — the last `n` characters of `s` (over the character
list, as Python slices by characters). -/
def takeRightChars (s : String) (n : Nat) : String :=
  (s.data.drop (s.data.length - n)).asString

/-- `_to_response` (ai_settings.py lines 30-40): serialize an AI
configuration row without its raw credential — only `bool(key)` and, when
the key is longer than 8 characters, a `"..."`-prefixed preview of its last
8 characters (`f"...{key[-8:]}"`). -/
def to_response (cfg : Models.AIConfig) : Schemas.AIConfigResponse :=
  let key := cfg.api_key.getD ""
  { provider := cfg.provider
    api_key_set := key ≠ ""
    api_key_preview :=
      if key.data.length > 8 then some ("..." ++ takeRightChars key 8) else none
    base_url := cfg.base_url
    model_id := cfg.model_id
    max_tokens := cfg.max_tokens }

/-- `get_or_create_ai_config` (ai_settings.py lines 43-82).  Returns the
(found or newly created) row together with the resulting table.  The global
row (`workspace_id = none`) is seeded from environment variables; a
per-workspace row is seeded from the global row's provider/base_url/
model_id/max_tokens when one exists — with `api_key := none`, never copied
from the global row — and from environment defaults otherwise. -/
def get_or_create_ai_config (db : List Models.AIConfig) (env : EnvVars)
    (workspace_id : Option String) : Models.AIConfig × List Models.AIConfig :=
  match workspace_id with
  | none =>
    match db.find? (fun r => r.workspace_id = none) with
    | some cfg => (cfg, db)
    | none =>
      let cfg : Models.AIConfig :=
        { workspace_id := none
          provider := if env.claude_bedrock_url ≠ "" then "bedrock" else "claude"
          api_key := some env.claude_api_key
          base_url := some env.claude_bedrock_url
          model_id := some env.claude_model_id
          max_tokens := 4096 }
      (cfg, db ++ [cfg])
  | some wid =>
    match db.find? (fun r => r.workspace_id = some wid) with
    | some cfg => (cfg, db)
    | none =>
      let g := db.find? (fun r => r.workspace_id = none)
      let cfg : Models.AIConfig :=
        { workspace_id := some wid
          provider := match g with | some gc => gc.provider | none => "bedrock"
          api_key := none
          base_url := match g with | some gc => gc.base_url | none => some env.claude_bedrock_url
          model_id := match g with | some gc => gc.model_id | none => some env.claude_model_id
          max_tokens := match g with | some gc => gc.max_tokens | none => 4096 }
      (cfg, db ++ [cfg])

/-- The field-update block shared by `save_ai_config` (ai_settings.py lines
142-147) and `save_workspace_ai_config` (workspaces.py lines 186-191):
`api_key` is overwritten only when the request carries a non-null one;
`provider`, `base_url`, `model_id` and `max_tokens` are overwritten
unconditionally with the request's values. -/
def apply_ai_config_update (cfg : Models.AIConfig) (body : Schemas.AIConfigUpdate) :
    Models.AIConfig :=
  { cfg with
    provider := body.provider
    api_key := match body.api_key with | some k => some k | none => cfg.api_key
    base_url := body.base_url
    model_id := body.model_id
    max_tokens := body.max_tokens }

/-- Commit an updated row back into the table (the row is identified by its
`workspace_id`, which is unique per the model's constraints). -/
def commit_ai_config (db : List Models.AIConfig) (cfg : Models.AIConfig) :
    List Models.AIConfig :=
  db.map fun r => if r.workspace_id = cfg.workspace_id then cfg else r

/-- `save_ai_config` (ai_settings.py lines 134-152): get-or-create the
global row, apply the update, commit, and serialize the response.  The
handler finally enqueues `_push_to_services` on the saved row as a detached
background task (returned here as the task list). -/
def save_ai_config (db : List Models.AIConfig) (env : EnvVars)
    (body : Schemas.AIConfigUpdate) :
    Schemas.AIConfigResponse × Models.AIConfig × List Models.AIConfig × List BackgroundTask :=
  let cfg := (get_or_create_ai_config db env none).1
  let db1 := (get_or_create_ai_config db env none).2
  let cfg2 := apply_ai_config_update cfg body
  (to_response cfg2, cfg2, commit_ai_config db1 cfg2, [BackgroundTask.pushToServices cfg2])

/-- `save_workspace_ai_config` (workspaces.py lines 173-196),
workspace-found path: get-or-create the per-workspace row, apply the same
update block, commit, enqueue `_push_to_services`, and serialize. -/
def save_workspace_ai_config (db : List Models.AIConfig) (env : EnvVars)
    (workspace_id : String) (body : Schemas.AIConfigUpdate) :
    Schemas.AIConfigResponse × Models.AIConfig × List Models.AIConfig × List BackgroundTask :=
  let cfg := (get_or_create_ai_config db env (some workspace_id)).1
  let db1 := (get_or_create_ai_config db env (some workspace_id)).2
  let cfg2 := apply_ai_config_update cfg body
  (to_response cfg2, cfg2, commit_ai_config db1 cfg2, [BackgroundTask.pushToServices cfg2])

/-- `needle` occurs as a contiguous substring of `hay`, over character
lists (used to state that a raw credential never appears in a serialized
response). -/
def listContainsSub (hay needle : List Char) : Bool :=
  match hay with
  | [] => needle.isPrefixOf ([] : List Char)
  | _ :: t => needle.isPrefixOf hay || listContainsSub t needle

/-- String-level substring occurrence. -/
def strContains (hay needle : String) : Bool :=
  listContainsSub hay.data needle.data

/-- `s` occurs in some string field of an `AIConfigResponse` body (the only
fields of the response that carry strings: provider, key preview, base URL,
model id). -/
def responseMentions (resp : Schemas.AIConfigResponse) (s : String) : Bool :=
  strContains resp.provider s ||
  strContains (resp.api_key_preview.getD "") s ||
  strContains (resp.base_url.getD "") s ||
  strContains (resp.model_id.getD "") s

/-!
## Theorems
-/

/-- Shared lemma: the status/error_message derivation of the block shared
by both provisioning endpoints. -/
theorem apply_provision_result_status (ws : Models.Workspace) (r : ProvisionResult) :
    (((apply_provision_result ws r).status = "ready" ∧
      (apply_provision_result ws r).error_message = none) ↔ r.errors = []) ∧
    (r.errors ≠ [] → (apply_provision_result ws r).status = "error" ∧
      (apply_provision_result ws r).error_message =
        some (String.intercalate "; " r.errors)) := by
  unfold apply_provision_result
  cases h : r.errors with
  | nil => simp [h]
  | cons a t => simp [h]

/-- C1: for every provisioning run — the step-by-step `provision` endpoint
and the all-in-one `setup_complete` — after `provision_workspace` returns,
the workspace status is `ready` with `error_message` cleared iff the
returned error list is empty; otherwise the status is `error` and
`error_message` is the error strings joined by `"; "` in order. -/
theorem provisioning_status_iff_errors (ws : Models.Workspace) (env : ProvisionEnv)
    (db : List Models.Workspace) (body : Schemas.SetupWizardRequest) (newId : String) :
    (((provision_endpoint ws env).status = "ready" ∧
        (provision_endpoint ws env).error_message = none) ↔
      (provision_endpoint_result (provision_endpoint_start ws) env).errors = []) ∧
    ((provision_endpoint_result (provision_endpoint_start ws) env).errors ≠ [] →
      (provision_endpoint ws env).status = "error" ∧
      (provision_endpoint ws env).error_message =
        some (String.intercalate "; "
          (provision_endpoint_result (provision_endpoint_start ws) env).errors)) ∧
    (db.any (fun w => w.slug = body.slug) = false →
      ∀ ws2 db2, setup_complete db body newId env = .ok (ws2, db2) →
        ((ws2.status = "ready" ∧ ws2.error_message = none) ↔
          (provision_workspace (setup_build_workspace body newId)
            body.ai body.metrics body.logs body.code env).errors = []) ∧
        ((provision_workspace (setup_build_workspace body newId)
            body.ai body.metrics body.logs body.code env).errors ≠ [] →
          ws2.status = "error" ∧
          ws2.error_message = some (String.intercalate "; "
            (provision_workspace (setup_build_workspace body newId)
              body.ai body.metrics body.logs body.code env).errors))) := by
  refine ⟨?_, ?_, ?_⟩
  · exact (apply_provision_result_status _ _).1
  · exact fun h => (apply_provision_result_status _ _).2 h
  · intro hfresh ws2 db2 hok
    unfold setup_complete at hok
    rw [hfresh] at hok
    simp only [Bool.false_eq_true, if_false, Except.ok.injEq, Prod.mk.injEq] at hok
    obtain ⟨hws2, -⟩ := hok
    subst hws2
    exact ⟨(apply_provision_result_status _ _).1, (apply_provision_result_status _ _).2⟩

/-- C1 witness: the claim instantiated at a concrete workspace whose single
supplied configuration (metrics) fails, so the error list is
`["Metrics: boom"]` and the final status is `error` with the joined
message. -/
theorem provisioning_status_iff_errors_witness :
    (let ws : Models.Workspace :=
      { id := "w1", name := "Acme", slug := "acme", status := "active"
        metrics_provider := some "datadog"
        metrics_credentials_encrypted := some [("api_key", "k")] }
     let env : ProvisionEnv :=
      { metricsOutcome := fun _ _ => .error "boom"
        logsOutcome := fun _ _ => .ok "L1"
        codeOutcome := fun _ _ => .ok ("CO", "CR")
        fixaiOutcome := fun _ _ _ _ _ => .ok "F1" }
     (provision_endpoint ws env).status = "error" ∧
     (provision_endpoint ws env).error_message = some "Metrics: boom") := by
  have h := provisioning_status_iff_errors
    { id := "w1", name := "Acme", slug := "acme", status := "active"
      metrics_provider := some "datadog"
      metrics_credentials_encrypted := some [("api_key", "k")] }
    { metricsOutcome := fun _ _ => .error "boom"
      logsOutcome := fun _ _ => .ok "L1"
      codeOutcome := fun _ _ => .ok ("CO", "CR")
      fixaiOutcome := fun _ _ _ _ _ => .ok "F1" }
    [] { name := "Acme", slug := "acme" } "w1"
  have h2 := h.2.1 (by decide)
  exact ⟨h2.1, by rw [h2.2]; rfl⟩

/-- C2: if exactly one of the metrics/logs/code provisioners raises during
`provision_workspace` (all three configurations supplied), the other two
still execute and their identifiers are returned, the FixAI provisioner is
still invoked receiving `none` for the failed service's identifiers, the
overall call returns normally (it is a total function), and the returned
error list contains exactly one entry labeled `"<Service>: <message>"` for
the failed service (plus, only if FixAI itself then fails, its own labeled
entry). -/
theorem provision_single_failure_isolated (ws : Models.Workspace)
    (ai : Option Schemas.AIConfig) (m : Schemas.MetricsConfig)
    (l : Schemas.LogsConfig) (c : Schemas.CodeConfig) (env : ProvisionEnv) :
    (∀ em lid co cr,
      env.metricsOutcome ws m = .error em →
      env.logsOutcome ws l = .ok lid →
      env.codeOutcome ws c = .ok (co, cr) →
      (provision_workspace ws ai (some m) (some l) (some c) env).metrics_org_id = none ∧
      (provision_workspace ws ai (some m) (some l) (some c) env).logs_org_id = some lid ∧
      (provision_workspace ws ai (some m) (some l) (some c) env).code_parser_org_id = some co ∧
      (provision_workspace ws ai (some m) (some l) (some c) env).code_parser_repo_id = some cr ∧
      (∀ f, env.fixaiOutcome ws none (some lid) (some co) (some cr) = .ok f →
        (provision_workspace ws ai (some m) (some l) (some c) env).fixai_org_id = some f ∧
        (provision_workspace ws ai (some m) (some l) (some c) env).errors = ["Metrics: " ++ em]) ∧
      (∀ ef, env.fixaiOutcome ws none (some lid) (some co) (some cr) = .error ef →
        (provision_workspace ws ai (some m) (some l) (some c) env).fixai_org_id = none ∧
        (provision_workspace ws ai (some m) (some l) (some c) env).errors =
          ["Metrics: " ++ em, "FixAI: " ++ ef])) ∧
    (∀ mid el co cr,
      env.metricsOutcome ws m = .ok mid →
      env.logsOutcome ws l = .error el →
      env.codeOutcome ws c = .ok (co, cr) →
      (provision_workspace ws ai (some m) (some l) (some c) env).metrics_org_id = some mid ∧
      (provision_workspace ws ai (some m) (some l) (some c) env).logs_org_id = none ∧
      (provision_workspace ws ai (some m) (some l) (some c) env).code_parser_org_id = some co ∧
      (provision_workspace ws ai (some m) (some l) (some c) env).code_parser_repo_id = some cr ∧
      (∀ f, env.fixaiOutcome ws (some mid) none (some co) (some cr) = .ok f →
        (provision_workspace ws ai (some m) (some l) (some c) env).fixai_org_id = some f ∧
        (provision_workspace ws ai (some m) (some l) (some c) env).errors = ["Logs: " ++ el]) ∧
      (∀ ef, env.fixaiOutcome ws (some mid) none (some co) (some cr) = .error ef →
        (provision_workspace ws ai (some m) (some l) (some c) env).fixai_org_id = none ∧
        (provision_workspace ws ai (some m) (some l) (some c) env).errors =
          ["Logs: " ++ el, "FixAI: " ++ ef])) ∧
    (∀ mid lid ec,
      env.metricsOutcome ws m = .ok mid →
      env.logsOutcome ws l = .ok lid →
      env.codeOutcome ws c = .error ec →
      (provision_workspace ws ai (some m) (some l) (some c) env).metrics_org_id = some mid ∧
      (provision_workspace ws ai (some m) (some l) (some c) env).logs_org_id = some lid ∧
      (provision_workspace ws ai (some m) (some l) (some c) env).code_parser_org_id = none ∧
      (provision_workspace ws ai (some m) (some l) (some c) env).code_parser_repo_id = none ∧
      (∀ f, env.fixaiOutcome ws (some mid) (some lid) none none = .ok f →
        (provision_workspace ws ai (some m) (some l) (some c) env).fixai_org_id = some f ∧
        (provision_workspace ws ai (some m) (some l) (some c) env).errors = ["Code: " ++ ec]) ∧
      (∀ ef, env.fixaiOutcome ws (some mid) (some lid) none none = .error ef →
        (provision_workspace ws ai (some m) (some l) (some c) env).fixai_org_id = none ∧
        (provision_workspace ws ai (some m) (some l) (some c) env).errors =
          ["Code: " ++ ec, "FixAI: " ++ ef])) := by
  refine ⟨?_, ?_, ?_⟩
  · intro em lid co cr hm hl hc
    simp only [provision_workspace, hm, hl, hc]
    exact ⟨trivial, trivial, trivial, trivial, fun f hf => by simp [hf], fun ef hef => by simp [hef]⟩
  · intro mid el co cr hm hl hc
    simp only [provision_workspace, hm, hl, hc]
    exact ⟨trivial, trivial, trivial, trivial, fun f hf => by simp [hf], fun ef hef => by simp [hef]⟩
  · intro mid lid ec hm hl hc
    simp only [provision_workspace, hm, hl, hc]
    exact ⟨trivial, trivial, trivial, trivial, fun f hf => by simp [hf], fun ef hef => by simp [hef]⟩

/-- C2 witness: a concrete run in which only the metrics provisioner fails
(`"boom"`) while logs, code and FixAI succeed; the error list is exactly
`["Metrics: boom"]` and the other identifiers are all obtained. -/
theorem provision_single_failure_isolated_witness :
    (let ws : Models.Workspace := { id := "w1", name := "Acme", slug := "acme", status := "active" }
     let env : ProvisionEnv :=
      { metricsOutcome := fun _ _ => .error "boom"
        logsOutcome := fun _ _ => .ok "L1"
        codeOutcome := fun _ _ => .ok ("CO", "CR")
        fixaiOutcome := fun _ mo _ _ _ => if mo = none then .ok "F1" else .error "bad" }
     let m : Schemas.MetricsConfig := { provider := "datadog" }
     let l : Schemas.LogsConfig := { host_url := "https://splunk" }
     let c : Schemas.CodeConfig := { repo_path := "/srv/acme" }
     (provision_workspace ws none (some m) (some l) (some c) env).metrics_org_id = none ∧
     (provision_workspace ws none (some m) (some l) (some c) env).logs_org_id = some "L1" ∧
     (provision_workspace ws none (some m) (some l) (some c) env).fixai_org_id = some "F1" ∧
     (provision_workspace ws none (some m) (some l) (some c) env).errors = ["Metrics: boom"]) := by
  have h := (provision_single_failure_isolated
    { id := "w1", name := "Acme", slug := "acme", status := "active" } none
    { provider := "datadog" } { host_url := "https://splunk" } { repo_path := "/srv/acme" }
    { metricsOutcome := fun _ _ => .error "boom"
      logsOutcome := fun _ _ => .ok "L1"
      codeOutcome := fun _ _ => .ok ("CO", "CR")
      fixaiOutcome := fun _ mo _ _ _ => if mo = none then .ok "F1" else .error "bad" }).1
    "boom" "L1" "CO" "CR" rfl rfl rfl
  have hf := h.2.2.2.2.1 "F1" rfl
  exact ⟨h.1, h.2.1, hf.1, hf.2⟩

/-- Shared lemma: `setup_build_workspace` always constructs the row in
status `provisioning`, whatever configuration steps are present. -/
theorem setup_build_workspace_status (body : Schemas.SetupWizardRequest) (newId : String) :
    (setup_build_workspace body newId).status = "provisioning" := by
  rcases body with ⟨n, sl, oa, om, ol, oc⟩
  cases oa <;> cases om <;> cases ol <;> cases oc <;> rfl

/-- Shared lemma: the post-provisioning status is always `ready` or
`error`. -/
theorem apply_provision_result_status_cases (ws : Models.Workspace) (r : ProvisionResult) :
    (apply_provision_result ws r).status = "ready" ∨
    (apply_provision_result ws r).status = "error" := by
  unfold apply_provision_result
  rcases r with ⟨f, m, l, co, cr, errs⟩
  cases errs <;> simp

/-- C3 counterexample: the CRUD create endpoint does not create workspaces
in status `setup` — on an empty database it creates the `"acme"` workspace
in status `"active"` (the `"setup"` value is only the unused column
default). -/
theorem create_workspace_status_counterexample :
    (create_workspace [] { name := "Acme", slug := "acme" } "w1").toOption.map
        (fun p => p.1.status) = some "active" ∧
    ("active" : String) ≠ "setup" := by decide

/-- C3 (amended): the `status` column default is `setup`, but the CRUD
create endpoint creates every workspace in status `active` and the
all-in-one setup endpoint creates it directly in `provisioning`; a
workspace transitions to `provisioning` when a provisioning attempt starts
and to `ready` or `error` when the attempt completes. -/
theorem workspace_lifecycle_statuses
    (db : List Models.Workspace) (body : Schemas.WorkspaceCreate)
    (wiz : Schemas.SetupWizardRequest) (newId : String)
    (ws : Models.Workspace) (env : ProvisionEnv) :
    Models.workspace_status_default = "setup" ∧
    (db.any (fun w => w.slug = body.slug) = false →
      (create_workspace db body newId).toOption.map (fun p => p.1.status) = some "active") ∧
    (setup_build_workspace wiz newId).status = "provisioning" ∧
    (∀ ws2 db2, setup_complete db wiz newId env = .ok (ws2, db2) →
      ws2.status = "ready" ∨ ws2.status = "error") ∧
    (provision_endpoint_start ws).status = "provisioning" ∧
    ((provision_endpoint ws env).status = "ready" ∨
      (provision_endpoint ws env).status = "error") := by
  refine ⟨rfl, ?_, setup_build_workspace_status wiz newId, ?_, rfl, ?_⟩
  · intro h
    unfold create_workspace
    rw [h]
    rfl
  · intro ws2 db2 hok
    unfold setup_complete at hok
    by_cases h : db.any (fun w => w.slug = wiz.slug) = true
    · rw [h] at hok
      simp at hok
    · rw [Bool.not_eq_true] at h
      rw [h] at hok
      simp only [Bool.false_eq_true, if_false, Except.ok.injEq, Prod.mk.injEq] at hok
      obtain ⟨hws2, -⟩ := hok
      subst hws2
      exact apply_provision_result_status_cases _ _
  · exact apply_provision_result_status_cases _ _

/-- C3 witness: the amended claim at concrete inputs — fresh slug `"acme"`
on an empty database yields a workspace created in status `active`; the
concrete all-in-one run ends `ready`; the provisioning start status is
`provisioning`. -/
theorem workspace_lifecycle_statuses_witness :
    Models.workspace_status_default = "setup" ∧
    (create_workspace [] { name := "Acme", slug := "acme" } "w1").toOption.map
        (fun p => p.1.status) = some "active" ∧
    (provision_endpoint_start
        { id := "w1", name := "Acme", slug := "acme", status := "active" }).status =
      "provisioning" := by
  have h := workspace_lifecycle_statuses [] { name := "Acme", slug := "acme" }
    { name := "Acme", slug := "acme" } "w1"
    { id := "w1", name := "Acme", slug := "acme", status := "active" }
    { metricsOutcome := fun _ _ => .ok "M1"
      logsOutcome := fun _ _ => .ok "L1"
      codeOutcome := fun _ _ => .ok ("CO", "CR")
      fixaiOutcome := fun _ _ _ _ _ => .ok "F1" }
  exact ⟨h.1, h.2.1 (by decide), h.2.2.2.2.1⟩

/-- C6: creating a workspace whose slug already exists — via the CRUD
create endpoint or the all-in-one setup endpoint — fails with 409 Conflict
and leaves the database exactly as it was: no row is added and the existing
workspace with that slug is unmodified. -/
theorem duplicate_slug_conflict (db : List Models.Workspace) (slug : String)
    (hdup : db.any (fun w => w.slug = slug) = true) :
    (∀ name newId, create_workspace db { name := name, slug := slug } newId =
      .error (409, db)) ∧
    (∀ body newId env, body.slug = slug →
      setup_complete db body newId env = .error (409, db)) := by
  constructor
  · intro name newId
    simp [create_workspace, hdup]
  · intro body newId env hs
    simp [setup_complete, hs, hdup]

/-- C6 witness: with workspace `"acme"` already present, both endpoints
reject a second `"acme"` with 409 and return the one-row database
untouched. -/
theorem duplicate_slug_conflict_witness :
    create_workspace [{ id := "w1", name := "Acme", slug := "acme", status := "active" }]
        { name := "Acme Two", slug := "acme" } "w2" =
      .error (409, [{ id := "w1", name := "Acme", slug := "acme", status := "active" }]) ∧
    setup_complete [{ id := "w1", name := "Acme", slug := "acme", status := "active" }]
        { name := "Acme Two", slug := "acme" } "w2"
        { metricsOutcome := fun _ _ => .ok "M1"
          logsOutcome := fun _ _ => .ok "L1"
          codeOutcome := fun _ _ => .ok ("CO", "CR")
          fixaiOutcome := fun _ _ _ _ _ => .ok "F1" } =
      .error (409, [{ id := "w1", name := "Acme", slug := "acme", status := "active" }]) := by
  have h := duplicate_slug_conflict
    [{ id := "w1", name := "Acme", slug := "acme", status := "active" }] "acme" (by decide)
  exact ⟨h.1 "Acme Two" "w2", h.2 { name := "Acme Two", slug := "acme" } "w2" _ rfl⟩

/-- C4 counterexample: `_push_ai_config_to_org` does not fetch the global
AI configuration row.  On a table whose first row is a workspace-scoped
configuration with credential `"K"` and whose global row has no credential,
the claim requires no remote call (the global credential is unset), but the
code PUTs the workspace row's credential to the organization; accordingly
the code's behavior differs from the spec-described operation at this
input. -/
theorem push_ai_config_not_global_counterexample :
    (let settings : Settings :=
      { fixai_url := "http://fixai", metrics_explorer_url := "http://metrics"
        logs_explorer_url := "http://logs", code_parser_url := "http://code" }
     let db : List Models.AIConfig :=
      [{ workspace_id := some "w1", provider := "claude", api_key := some "K"
         base_url := none, model_id := none, max_tokens := 4096 },
       { workspace_id := none, provider := "bedrock", api_key := none
         base_url := none, model_id := none, max_tokens := 4096 }]
     ((db.find? (fun r => r.workspace_id = none)).map Models.AIConfig.api_key =
        some none) ∧
     push_ai_config_to_org settings db "fixai" "org-1" =
       PushAction.put "http://fixai/api/v1/organizations/org-1/ai-config"
         [("claude_api_key", JVal.str "K"), ("claude_bedrock_url", JVal.str ""),
          ("claude_model_id", JVal.str ""), ("claude_max_tokens", JVal.num 4096)] ∧
     push_ai_config_to_org settings db "fixai" "org-1" ≠
       push_ai_config_to_org_spec settings db "fixai" "org-1") := by decide

/-- C4 (amended): the push-AI-configuration-to-one-newly-linked-organization
operation fetches the first AI configuration row of the table (an
unfiltered single-row query — not necessarily the global row); if there is
no row, or that row has no credential set, or the service name is neither
`fixai` nor `code_parser`, it performs no remote call; otherwise it PUTs
the credential payload of that row to that single organization only. -/
theorem push_ai_config_first_row (settings : Settings) (db : List Models.AIConfig)
    (service org_id : String) :
    (db.head? = none →
      push_ai_config_to_org settings db service org_id = .noCall) ∧
    (∀ cfg, db.head? = some cfg →
      (truthy cfg.api_key = false →
        push_ai_config_to_org settings db service org_id = .noCall) ∧
      (truthy cfg.api_key = true →
        (service = "fixai" →
          push_ai_config_to_org settings db service org_id =
            .put (settings.fixai_url ++ "/api/v1/organizations/" ++ org_id ++ "/ai-config")
              (ai_config_push_payload cfg)) ∧
        (service ≠ "fixai" → service = "code_parser" →
          push_ai_config_to_org settings db service org_id =
            .put (settings.code_parser_url ++ "/api/v1/orgs/" ++ org_id ++ "/ai-config")
              (ai_config_push_payload cfg)) ∧
        (service ≠ "fixai" → service ≠ "code_parser" →
          push_ai_config_to_org settings db service org_id = .noCall))) := by
  constructor
  · intro h
    simp [push_ai_config_to_org, h]
  · intro cfg hcfg
    constructor
    · intro hfalsy
      simp [push_ai_config_to_org, hcfg, hfalsy]
    · intro htruthy
      refine ⟨?_, ?_, ?_⟩
      · intro hs
        simp [push_ai_config_to_org, hcfg, htruthy, hs]
      · intro hs1 hs2
        simp [push_ai_config_to_org, hcfg, htruthy, hs1, hs2]
      · intro hs1 hs2
        simp [push_ai_config_to_org, hcfg, htruthy, hs1, hs2]

/-- C4 witness: the amended claim at the counterexample table — the first
row (workspace-scoped, credential `"K"`) is what gets pushed to the single
fixai organization. -/
theorem push_ai_config_first_row_witness :
    push_ai_config_to_org
      { fixai_url := "http://fixai", metrics_explorer_url := "http://metrics"
        logs_explorer_url := "http://logs", code_parser_url := "http://code" }
      [{ workspace_id := some "w1", provider := "claude", api_key := some "K"
         base_url := none, model_id := none, max_tokens := 4096 },
       { workspace_id := none, provider := "bedrock", api_key := none
         base_url := none, model_id := none, max_tokens := 4096 }]
      "fixai" "org-1" =
    PushAction.put "http://fixai/api/v1/organizations/org-1/ai-config"
      (ai_config_push_payload
        { workspace_id := some "w1", provider := "claude", api_key := some "K"
          base_url := none, model_id := none, max_tokens := 4096 }) := by
  have h := (push_ai_config_first_row
    { fixai_url := "http://fixai", metrics_explorer_url := "http://metrics"
      logs_explorer_url := "http://logs", code_parser_url := "http://code" }
    [{ workspace_id := some "w1", provider := "claude", api_key := some "K"
       base_url := none, model_id := none, max_tokens := 4096 },
     { workspace_id := none, provider := "bedrock", api_key := none
       base_url := none, model_id := none, max_tokens := 4096 }]
    "fixai" "org-1").2
    { workspace_id := some "w1", provider := "claude", api_key := some "K"
      base_url := none, model_id := none, max_tokens := 4096 } rfl
  exact ((h.2 (by decide)).1 rfl)

/-- C5: the first access to a workspace's AI configuration, when no
per-workspace row exists yet and a global row does, creates a row whose
provider, base URL, model identifier (and token limit) are copied from the
global row but whose credential is `none` — the global credential is never
copied. -/
theorem workspace_ai_config_seeded_without_credential
    (db : List Models.AIConfig) (env : EnvVars) (wid : String) (g : Models.AIConfig)
    (hnone : db.find? (fun r => r.workspace_id = some wid) = none)
    (hg : db.find? (fun r => r.workspace_id = none) = some g) :
    (get_or_create_ai_config db env (some wid)).1.workspace_id = some wid ∧
    (get_or_create_ai_config db env (some wid)).1.provider = g.provider ∧
    (get_or_create_ai_config db env (some wid)).1.base_url = g.base_url ∧
    (get_or_create_ai_config db env (some wid)).1.model_id = g.model_id ∧
    (get_or_create_ai_config db env (some wid)).1.max_tokens = g.max_tokens ∧
    (get_or_create_ai_config db env (some wid)).1.api_key = none ∧
    (get_or_create_ai_config db env (some wid)).2 =
      db ++ [(get_or_create_ai_config db env (some wid)).1] := by
  simp [get_or_create_ai_config, hnone, hg]

/-- C5 witness: with a single global row carrying credential `"G"` and
model `"m1"`, the lazily created row for workspace `"w1"` copies
provider/URL/model but has an empty (`none`, in particular not `"G"`)
credential. -/
theorem workspace_ai_config_seeded_witness :
    (get_or_create_ai_config
      [{ workspace_id := none, provider := "bedrock", api_key := some "G"
         base_url := some "https://proxy", model_id := some "m1", max_tokens := 4096 }]
      {} (some "w1")).1.model_id = some "m1" ∧
    (get_or_create_ai_config
      [{ workspace_id := none, provider := "bedrock", api_key := some "G"
         base_url := some "https://proxy", model_id := some "m1", max_tokens := 4096 }]
      {} (some "w1")).1.provider = "bedrock" ∧
    (get_or_create_ai_config
      [{ workspace_id := none, provider := "bedrock", api_key := some "G"
         base_url := some "https://proxy", model_id := some "m1", max_tokens := 4096 }]
      {} (some "w1")).1.base_url = some "https://proxy" ∧
    (get_or_create_ai_config
      [{ workspace_id := none, provider := "bedrock", api_key := some "G"
         base_url := some "https://proxy", model_id := some "m1", max_tokens := 4096 }]
      {} (some "w1")).1.api_key = none := by
  have h := workspace_ai_config_seeded_without_credential
    [{ workspace_id := none, provider := "bedrock", api_key := some "G"
       base_url := some "https://proxy", model_id := some "m1", max_tokens := 4096 }]
    {} "w1"
    { workspace_id := none, provider := "bedrock", api_key := some "G"
      base_url := some "https://proxy", model_id := some "m1", max_tokens := 4096 }
    (by decide) (by decide)
  exact ⟨h.2.2.2.1, h.2.1, h.2.2.1, h.2.2.2.2.2.1⟩

/-- C7: saving the global AI configuration with credential
`"sk-test-1234567890"` (and request fields that do not themselves quote the
credential — the provider is pattern-restricted anyway) yields a response
with `api_key_set = true`, `api_key_preview = "...34567890"` (`"..."` plus
the last 8 characters), and the raw credential nowhere in the response
body. -/
theorem save_ai_config_masks_credential
    (db : List Models.AIConfig) (env : EnvVars) (body : Schemas.AIConfigUpdate)
    (hk : body.api_key = some "sk-test-1234567890")
    (hp : strContains body.provider "sk-test-1234567890" = false)
    (hb : strContains (body.base_url.getD "") "sk-test-1234567890" = false)
    (hm : strContains (body.model_id.getD "") "sk-test-1234567890" = false) :
    (save_ai_config db env body).1.api_key_set = true ∧
    (save_ai_config db env body).1.api_key_preview = some "...34567890" ∧
    responseMentions (save_ai_config db env body).1 "sk-test-1234567890" = false := by
  rcases body with ⟨prov, ak, bu, mi, mt⟩
  obtain rfl : ak = some "sk-test-1234567890" := hk
  refine ⟨rfl, rfl, ?_⟩
  show (strContains prov "sk-test-1234567890" ||
        strContains "...34567890" "sk-test-1234567890" ||
        strContains (bu.getD "") "sk-test-1234567890" ||
        strContains (mi.getD "") "sk-test-1234567890") = false
  rw [hp, hb, hm]
  decide

/-- C7 witness: the scenario at a concrete request (fresh table,
provider `"bedrock"`, no base URL or model id): preview `"...34567890"`,
`api_key_set` true, credential absent from the response. -/
theorem save_ai_config_masks_credential_witness :
    (save_ai_config [] {}
        { provider := "bedrock", api_key := some "sk-test-1234567890" }).1.api_key_set = true ∧
    (save_ai_config [] {}
        { provider := "bedrock", api_key := some "sk-test-1234567890" }).1.api_key_preview =
      some "...34567890" ∧
    responseMentions
      (save_ai_config [] {}
        { provider := "bedrock", api_key := some "sk-test-1234567890" }).1
      "sk-test-1234567890" = false := by
  exact save_ai_config_masks_credential [] {}
    { provider := "bedrock", api_key := some "sk-test-1234567890" }
    rfl (by decide) (by decide) (by decide)

/-- C8: in the FixAI organization-creation payload (`provision_fixai`) and
in the service-mapping payload (`_build_fixai_service_mappings`), every
optional cross-service identifier whose value is not known is encoded as an
explicit JSON `null`, never as an empty string, and known metrics/logs
identifiers are sent as their string form. -/
theorem fixai_payload_null_encoding (settings : Settings) (ws : Models.Workspace)
    (mo lo co cr : Option String) :
    ((mo = none →
      (provision_fixai_payload settings ws mo lo co cr).lookup "metrics_explorer_org_id" =
        some JVal.null) ∧
     (∀ s, mo = some s →
      (provision_fixai_payload settings ws mo lo co cr).lookup "metrics_explorer_org_id" =
        some (JVal.str s)) ∧
     (lo = none →
      (provision_fixai_payload settings ws mo lo co cr).lookup "logs_explorer_org_id" =
        some JVal.null) ∧
     (∀ s, lo = some s →
      (provision_fixai_payload settings ws mo lo co cr).lookup "logs_explorer_org_id" =
        some (JVal.str s)) ∧
     (co = none →
      (provision_fixai_payload settings ws mo lo co cr).lookup "code_parser_org_id" =
        some JVal.null) ∧
     (∀ s, co = some s →
      (provision_fixai_payload settings ws mo lo co cr).lookup "code_parser_org_id" =
        some (JVal.str s)) ∧
     (cr = none →
      (provision_fixai_payload settings ws mo lo co cr).lookup "code_parser_repo_id" =
        some JVal.null) ∧
     (∀ s, cr = some s →
      (provision_fixai_payload settings ws mo lo co cr).lookup "code_parser_repo_id" =
        some (JVal.str s))) ∧
    ((truthy ws.code_parser_org_id = false →
      (build_fixai_service_mappings settings ws).lookup "code_parser_org_id" =
        some JVal.null ∧
      (build_fixai_service_mappings settings ws).lookup "code_parser_repo_id" =
        some JVal.null) ∧
     (ws.metrics_org_id = none →
      (build_fixai_service_mappings settings ws).lookup "metrics_explorer_org_id" =
        some JVal.null) ∧
     (∀ s, ws.metrics_org_id = some s →
      (build_fixai_service_mappings settings ws).lookup "metrics_explorer_org_id" =
        some (JVal.str s)) ∧
     (ws.logs_org_id = none →
      (build_fixai_service_mappings settings ws).lookup "logs_explorer_org_id" =
        some JVal.null) ∧
     (∀ s, ws.logs_org_id = some s →
      (build_fixai_service_mappings settings ws).lookup "logs_explorer_org_id" =
        some (JVal.str s))) := by
  constructor
  · refine ⟨?_, ?_, ?_, ?_, ?_, ?_, ?_, ?_⟩ <;>
      first
        | (intro h; subst h; rfl)
        | (intro s h; subst h; rfl)
  · refine ⟨?_, ?_, ?_, ?_, ?_⟩
    · intro h
      unfold build_fixai_service_mappings
      rw [h]
      exact ⟨rfl, rfl⟩
    · intro h
      unfold build_fixai_service_mappings
      rw [h]
      cases truthy ws.code_parser_org_id <;> rfl
    · intro s h
      unfold build_fixai_service_mappings
      rw [h]
      cases truthy ws.code_parser_org_id <;> rfl
    · intro h
      unfold build_fixai_service_mappings
      rw [h]
      cases truthy ws.code_parser_org_id <;> cases ws.metrics_org_id.isSome <;> rfl
    · intro s h
      unfold build_fixai_service_mappings
      rw [h]
      cases truthy ws.code_parser_org_id <;> cases ws.metrics_org_id.isSome <;> rfl

/-- C8 witness: a concrete payload with metrics known (`"M1"`) and
logs/code unknown carries `"M1"` as a string and explicit nulls elsewhere;
the mapping payload for a workspace with no code link carries nulls for the
code fields. -/
theorem fixai_payload_null_encoding_witness :
    (provision_fixai_payload
      { fixai_url := "http://fixai", metrics_explorer_url := "http://metrics"
        logs_explorer_url := "http://logs", code_parser_url := "http://code" }
      { id := "w1", name := "Acme", slug := "acme", status := "provisioning" }
      (some "M1") none none none).lookup "metrics_explorer_org_id" =
      some (JVal.str "M1") ∧
    (provision_fixai_payload
      { fixai_url := "http://fixai", metrics_explorer_url := "http://metrics"
        logs_explorer_url := "http://logs", code_parser_url := "http://code" }
      { id := "w1", name := "Acme", slug := "acme", status := "provisioning" }
      (some "M1") none none none).lookup "logs_explorer_org_id" = some JVal.null ∧
    (build_fixai_service_mappings
      { fixai_url := "http://fixai", metrics_explorer_url := "http://metrics"
        logs_explorer_url := "http://logs", code_parser_url := "http://code" }
      { id := "w1", name := "Acme", slug := "acme", status := "ready",
        metrics_org_id := some "M1" }).lookup "code_parser_org_id" = some JVal.null := by
  have h := fixai_payload_null_encoding
    { fixai_url := "http://fixai", metrics_explorer_url := "http://metrics"
      logs_explorer_url := "http://logs", code_parser_url := "http://code" }
    { id := "w1", name := "Acme", slug := "acme", status := "provisioning" }
    (some "M1") none none none
  have h2 := fixai_payload_null_encoding
    { fixai_url := "http://fixai", metrics_explorer_url := "http://metrics"
      logs_explorer_url := "http://logs", code_parser_url := "http://code" }
    { id := "w1", name := "Acme", slug := "acme", status := "ready",
      metrics_org_id := some "M1" }
    none none none none
  exact ⟨h.1.2.1 "M1" rfl, h.1.2.2.1 rfl, (h2.2.1 (by decide)).1⟩

/-- C9: the connect-service endpoint given a service name other than
`fixai`/`metrics`/`logs`/`code_parser` succeeds and returns the workspace
with every field (in particular every service-link field) unchanged — no
branch matches and nothing is raised — whereas the disconnect-service
endpoint given an unknown service name fails with a 400 client error
before any commit, leaving the workspace unchanged. -/
theorem unknown_service_connect_vs_disconnect (ws : Models.Workspace)
    (body : Schemas.ConnectServiceRequest)
    (h1 : body.service ≠ "fixai") (h2 : body.service ≠ "metrics")
    (h3 : body.service ≠ "logs") (h4 : body.service ≠ "code_parser") :
    (connect_service ws body).1 = ws ∧
    disconnect_service ws body.service = .error 400 := by
  constructor
  · simp [connect_service, h1, h2, h3, h4]
  · simp [disconnect_service, h1, h2, h3, h4, Except.map]

/-- C9 witness: connecting service `"database"` (unknown) to a workspace
returns it unchanged, while disconnecting `"database"` yields a 400
error. -/
theorem unknown_service_connect_vs_disconnect_witness :
    (connect_service
      { id := "w1", name := "Acme", slug := "acme", status := "ready"
        metrics_org_id := some "M1" }
      { service := "database", org_id := "X1" }).1 =
      { id := "w1", name := "Acme", slug := "acme", status := "ready"
        metrics_org_id := some "M1" } ∧
    disconnect_service
      { id := "w1", name := "Acme", slug := "acme", status := "ready"
        metrics_org_id := some "M1" } "database" = .error 400 := by
  exact unknown_service_connect_vs_disconnect
    { id := "w1", name := "Acme", slug := "acme", status := "ready"
      metrics_org_id := some "M1" }
    { service := "database", org_id := "X1" }
    (by decide) (by decide) (by decide) (by decide)

/-- C10: on every AI-configuration save — global (`save_ai_config`) or
per-workspace (`save_workspace_ai_config`) — the stored credential is
overwritten only when the request supplies a non-null `api_key` (a request
omitting it preserves the previously stored credential), while `provider`,
`base_url`, `model_id` and `max_tokens` are always overwritten with the
request's values (so a null `base_url`/`model_id` clears the stored
value). -/
theorem ai_config_save_credential_frame (db : List Models.AIConfig) (env : EnvVars)
    (wid : String) (body : Schemas.AIConfigUpdate) :
    ((body.api_key = none → (save_ai_config db env body).2.1.api_key =
        (get_or_create_ai_config db env none).1.api_key) ∧
     (∀ k, body.api_key = some k →
        (save_ai_config db env body).2.1.api_key = some k) ∧
     (save_ai_config db env body).2.1.provider = body.provider ∧
     (save_ai_config db env body).2.1.base_url = body.base_url ∧
     (save_ai_config db env body).2.1.model_id = body.model_id ∧
     (save_ai_config db env body).2.1.max_tokens = body.max_tokens) ∧
    ((body.api_key = none → (save_workspace_ai_config db env wid body).2.1.api_key =
        (get_or_create_ai_config db env (some wid)).1.api_key) ∧
     (∀ k, body.api_key = some k →
        (save_workspace_ai_config db env wid body).2.1.api_key = some k) ∧
     (save_workspace_ai_config db env wid body).2.1.provider = body.provider ∧
     (save_workspace_ai_config db env wid body).2.1.base_url = body.base_url ∧
     (save_workspace_ai_config db env wid body).2.1.model_id = body.model_id ∧
     (save_workspace_ai_config db env wid body).2.1.max_tokens = body.max_tokens) := by
  constructor
  · refine ⟨?_, ?_, rfl, rfl, rfl, rfl⟩
    · intro h
      show (apply_ai_config_update (get_or_create_ai_config db env none).1 body).api_key = _
      rw [apply_ai_config_update, h]
    · intro k h
      show (apply_ai_config_update (get_or_create_ai_config db env none).1 body).api_key = some k
      rw [apply_ai_config_update, h]
  · refine ⟨?_, ?_, rfl, rfl, rfl, rfl⟩
    · intro h
      show (apply_ai_config_update
        (get_or_create_ai_config db env (some wid)).1 body).api_key = _
      rw [apply_ai_config_update, h]
    · intro k h
      show (apply_ai_config_update
        (get_or_create_ai_config db env (some wid)).1 body).api_key = some k
      rw [apply_ai_config_update, h]

/-- C10 witness: on a table whose global row stores credential `"OLD"`, a
save omitting `api_key` keeps `"OLD"` while overwriting `model_id` (here
clearing it to `none`), both globally and for workspace `"w1"` (whose
freshly seeded row has no credential to preserve). -/
theorem ai_config_save_credential_frame_witness :
    (save_ai_config
        [{ workspace_id := none, provider := "bedrock", api_key := some "OLD"
           base_url := none, model_id := some "m0", max_tokens := 4096 }] {}
        { provider := "claude" }).2.1.api_key = some "OLD" ∧
    (save_ai_config
        [{ workspace_id := none, provider := "bedrock", api_key := some "OLD"
           base_url := none, model_id := some "m0", max_tokens := 4096 }] {}
        { provider := "claude" }).2.1.model_id = none ∧
    (save_ai_config
        [{ workspace_id := none, provider := "bedrock", api_key := some "OLD"
           base_url := none, model_id := some "m0", max_tokens := 4096 }] {}
        { provider := "claude" }).2.1.provider = "claude" ∧
    (save_workspace_ai_config
        [{ workspace_id := none, provider := "bedrock", api_key := some "OLD"
           base_url := none, model_id := some "m0", max_tokens := 4096 }] {} "w1"
        { provider := "claude", api_key := some "NEW" }).2.1.api_key = some "NEW" := by
  have h := ai_config_save_credential_frame
    [{ workspace_id := none, provider := "bedrock", api_key := some "OLD"
       base_url := none, model_id := some "m0", max_tokens := 4096 }] {} "w1"
    { provider := "claude" }
  have h2 := ai_config_save_credential_frame
    [{ workspace_id := none, provider := "bedrock", api_key := some "OLD"
       base_url := none, model_id := some "m0", max_tokens := 4096 }] {} "w1"
    { provider := "claude", api_key := some "NEW" }
  refine ⟨?_, h.1.2.2.2.2.1, h.1.2.2.1, h2.2.2.1 "NEW" rfl⟩
  rw [h.1.1 rfl]
  decide
